import Mathlib

/-!
Verification of the response-normalization and analytics layer of an
energy-storage MCP server (main.py).  The Python functions are shallowly
embedded: Python dicts with a fixed key set become structures of Option
fields, numbers become rationals, heterogeneous returns become inductive
sum types, and the wall-clock timestamp of the envelope builder becomes an
explicit argument.  Option.none models an absent key or a Python None.
-/

/-- Tag for the kind of payload an envelope carries (main.py DataType). -/
inductive DataType where
  | timeseries
  | config
  | snapshot
  | summary
  | system_list
deriving DecidableEq

/-- A value stored in an envelope metadata dict: a string, a number,
Python None, or a payload value. -/
inductive MetaVal (V : Type) where
  | str (s : String)
  | num (n : Nat)
  | null
  | val (v : V)
deriving DecidableEq

/-- First-match lookup in an association list modelling a Python dict. -/
def dictLookup {α : Type} : List (String × α) → String → Option α
  | [], _ => Option.none
  | (k, v) :: t, key => if k = key then some v else dictLookup t key

/-- Python dict key assignment: overwrite in place when the key exists,
append otherwise (Python dicts keep the original key position). -/
def pyDictInsert {α : Type} (d : List (String × α)) (k : String) (v : α) : List (String × α) :=
  if (dictLookup d k).isSome then d.map (fun kv => if kv.1 = k then (k, v) else kv)
  else d ++ [(k, v)]

/-- Python double-star merge: fold the entries of the second dict into the
first, later entries overriding earlier ones. -/
def pyDictMerge {α : Type} (d : List (String × α)) (entries : List (String × α)) : List (String × α) :=
  entries.foldl (fun acc kv => pyDictInsert acc kv.1 kv.2) d

/-- The standardized response shape built by create_enhanced_response.
The structured field is Option: none models the structured key being
absent from the returned dict. -/
structure Envelope (V : Type) where
  success : Bool
  message : String
  data_type : DataType
  metadata : List (String × MetaVal V)
  data : Option V
  structured : Option V
deriving DecidableEq

/-- The literal part of the metadata dict in create_enhanced_response:
the timestamp entry followed by the conditional serial_used spread.  The
Python guard if serial_used tests truthiness, so the serial_used key is
added only for a non-None, non-empty string. -/
def serialMetadata {V : Type} (now : String) (serial_used : Option String) :
    List (String × MetaVal V) :=
  match serial_used with
  | some s =>
      if s != "" then [("timestamp", MetaVal.str now), ("serial_used", MetaVal.str s)]
      else [("timestamp", MetaVal.str now)]
  | Option.none => [("timestamp", MetaVal.str now)]

/-- main.py create_enhanced_response.  The construction instant
datetime.now().isoformat() is passed in as the explicit argument now. -/
def create_enhanced_response {V : Type} (success : Bool) (message : String)
    (raw_data : Option V) (data_type : DataType) (now : String)
    (serial_used : Option String) (metadata : Option (List (String × MetaVal V)))
    (structured_data : Option V) : Envelope V :=
  { success := success
    message := message
    data_type := data_type
    metadata := pyDictMerge (serialMetadata now serial_used) (metadata.getD [])
    data := raw_data
    structured := structured_data }

/-- The last binding of a key in a dict written as an entry list: the one
that wins when the entries are spread into a dict literal. -/
def lastBinding {α : Type} (entries : List (String × α)) (key : String) : Option α :=
  dictLookup entries.reverse key

/-- One raw vendor day-record, as consumed by structure_timeseries_data.
Each field models the corresponding dict key; none models an absent key. -/
structure RawRecord where
  uploadTime : Option String
  ppv : Option ℚ
  load : Option ℚ
  cbat : Option ℚ
  feedIn : Option ℚ
  gridCharge : Option ℚ
  pchargingPile : Option ℚ
  sysSn : Option String
deriving DecidableEq

/-- One projected sample (main.py series element / models.TimeSeriesEntry). -/
structure TimeSeriesEntry where
  timestamp : String
  solar_power : ℚ
  load_power : ℚ
  battery_soc : ℚ
  grid_feedin : ℚ
  grid_import : ℚ
  ev_charging : ℚ
deriving DecidableEq

/-- The per-record projection inside structure_timeseries_data:
record.get(key, default) becomes Option.getD. -/
def entryOfRecord (record : RawRecord) : TimeSeriesEntry :=
  { timestamp := record.uploadTime.getD ""
    solar_power := record.ppv.getD 0
    load_power := record.load.getD 0
    battery_soc := record.cbat.getD 0
    grid_feedin := record.feedIn.getD 0
    grid_import := record.gridCharge.getD 0
    ev_charging := record.pchargingPile.getD 0 }

/-- Python max(xs) if xs else 0, on rationals. -/
def pyMax (xs : List ℚ) : ℚ :=
  match xs with
  | [] => 0
  | x :: t => t.foldl max x

/-- Python min(xs) if xs else 0, on rationals. -/
def pyMin (xs : List ℚ) : ℚ :=
  match xs with
  | [] => 0
  | x :: t => t.foldl min x

/-- Python sum(xs) / len(xs) if xs else 0, on rationals. -/
def pyAvg (xs : List ℚ) : ℚ :=
  match xs with
  | [] => 0
  | _ :: _ => xs.sum / (xs.length : ℚ)

/-- Solar block of the summary dict. -/
structure SolarSummary where
  peak_power : ℚ
  avg_power : ℚ
  total_generation_kwh : ℚ
deriving DecidableEq

/-- Battery block of the summary dict. -/
structure BatterySummary where
  max_soc : ℚ
  min_soc : ℚ
  avg_soc : ℚ
deriving DecidableEq

/-- Grid block of the summary dict. -/
structure GridSummary where
  total_feedin_kwh : ℚ
  peak_feedin : ℚ
deriving DecidableEq

/-- Load block of the summary dict. -/
structure LoadSummary where
  peak_power : ℚ
  avg_power : ℚ
  total_consumption_kwh : ℚ
deriving DecidableEq

/-- The full summary dict built by structure_timeseries_data on non-empty
input. -/
structure TsSummary where
  total_records : Nat
  interval_minutes : Nat
  time_span_hours : ℚ
  solar : SolarSummary
  battery : BatterySummary
  grid : GridSummary
  load : LoadSummary
deriving DecidableEq

/-- Result of structure_timeseries_data.  summary is Option: none models
the empty summary dict returned for empty input. -/
structure TimeSeries where
  series : List TimeSeriesEntry
  summary : Option TsSummary
deriving DecidableEq

/-- The summary-statistics block of structure_timeseries_data, computed
from the projected series exactly as in main.py lines 65-94. -/
def mkSummary (series : List TimeSeriesEntry) : TsSummary :=
  let solar_values := series.map (fun r => r.solar_power)
  let load_values := series.map (fun r => r.load_power)
  let battery_values := series.map (fun r => r.battery_soc)
  let feedin_values := series.map (fun r => r.grid_feedin)
  { total_records := series.length
    interval_minutes := 10
    time_span_hours := (series.length : ℚ) * 10 / 60
    solar :=
      { peak_power := pyMax solar_values
        avg_power := pyAvg solar_values
        total_generation_kwh := solar_values.sum * 10 / 60 / 1000 }
    battery :=
      { max_soc := pyMax battery_values
        min_soc := pyMin battery_values
        avg_soc := pyAvg battery_values }
    grid :=
      { total_feedin_kwh := feedin_values.sum * 10 / 60 / 1000
        peak_feedin := pyMax feedin_values }
    load :=
      { peak_power := pyMax load_values
        avg_power := pyAvg load_values
        total_consumption_kwh := load_values.sum * 10 / 60 / 1000 } }

/-- main.py structure_timeseries_data.  The input is Option to model the
Python guard if not raw_data, which treats None and the empty list alike.
The serial parameter is carried exactly as in the source, where it is
never read. -/
def structure_timeseries_data (raw_data : Option (List RawRecord)) (serial : String) : TimeSeries :=
  let rd := raw_data.getD []
  if rd.isEmpty then { series := [], summary := Option.none }
  else
    let series := rd.map entryOfRecord
    { series := series, summary := some (mkSummary series) }

/-- The solar_power samples extracted from a record list, as read back out
of the projected series (the solar_values list in main.py). -/
def solarSamples (records : List RawRecord) : List ℚ :=
  (records.map entryOfRecord).map (fun e => e.solar_power)

/-- Replace the redundant per-record serial field of a raw record. -/
def setSysSn (v : Option String) (r : RawRecord) : RawRecord :=
  { r with sysSn := v }

/-- One raw vendor configuration mapping, as consumed by
structure_config_data; none models an absent key. -/
structure RawConfig where
  gridCharge : Option ℚ
  ctrDis : Option ℚ
  timeChaf1 : Option String
  timeChae1 : Option String
  timeChaf2 : Option String
  timeChae2 : Option String
  timeDisf1 : Option String
  timeDise1 : Option String
  timeDisf2 : Option String
  timeDise2 : Option String
  batHighCap : Option ℚ
  batUseCap : Option ℚ
deriving DecidableEq

/-- One projected scheduling window (models.ConfigPeriod). -/
structure ConfigPeriod where
  period : Nat
  start_time : String
  end_time : String
  active : Bool
deriving DecidableEq

/-- Projected charging configuration (models.ChargeConfig). -/
structure ChargeConfig where
  enabled : Bool
  periods : List ConfigPeriod
  charge_limit_soc : ℚ
  units : List (String × String)
deriving DecidableEq

/-- Projected discharge configuration (models.DischargeConfig). -/
structure DischargeConfig where
  enabled : Bool
  periods : List ConfigPeriod
  discharge_limit_soc : ℚ
  units : List (String × String)
deriving DecidableEq

/-- Heterogeneous return of structure_config_data: a structured charge or
discharge config, or the raw mapping passed through unchanged. -/
inductive ConfigResult where
  | charge (c : ChargeConfig)
  | discharge (d : DischargeConfig)
  | raw (r : RawConfig)
deriving DecidableEq

/-- Python bool() of a number. -/
def pyBool (q : ℚ) : Bool := q != 0

/-- main.py structure_config_data. -/
def structure_config_data (raw_data : RawConfig) (config_type : String) : ConfigResult :=
  if config_type = "charge" then
    ConfigResult.charge
      { enabled := pyBool (raw_data.gridCharge.getD 0)
        periods :=
          [ { period := 1
              start_time := raw_data.timeChaf1.getD "00:00"
              end_time := raw_data.timeChae1.getD "00:00"
              active := (raw_data.timeChaf1.getD "00:00" != "00:00")
                || (raw_data.timeChae1.getD "00:00" != "00:00") }
          , { period := 2
              start_time := raw_data.timeChaf2.getD "00:00"
              end_time := raw_data.timeChae2.getD "00:00"
              active := (raw_data.timeChaf2.getD "00:00" != "00:00")
                || (raw_data.timeChae2.getD "00:00" != "00:00") } ]
        charge_limit_soc := raw_data.batHighCap.getD 100
        units := [("soc", "%"), ("time", "HH:MM")] }
  else if config_type = "discharge" then
    ConfigResult.discharge
      { enabled := pyBool (raw_data.ctrDis.getD 0)
        periods :=
          [ { period := 1
              start_time := raw_data.timeDisf1.getD "00:00"
              end_time := raw_data.timeDise1.getD "00:00"
              active := (raw_data.timeDisf1.getD "00:00" != "00:00")
                || (raw_data.timeDise1.getD "00:00" != "00:00") }
          , { period := 2
              start_time := raw_data.timeDisf2.getD "00:00"
              end_time := raw_data.timeDise2.getD "00:00"
              active := (raw_data.timeDisf2.getD "00:00" != "00:00")
                || (raw_data.timeDise2.getD "00:00" != "00:00") } ]
        discharge_limit_soc := raw_data.batUseCap.getD 10
        units := [("soc", "%"), ("time", "HH:MM")] }
  else ConfigResult.raw raw_data

/-- The periods list of a config projection result. -/
def configPeriods : ConfigResult → List ConfigPeriod
  | ConfigResult.charge c => c.periods
  | ConfigResult.discharge d => d.periods
  | ConfigResult.raw _ => []

/-- The limit SOC of a config projection result. -/
def configLimitSoc : ConfigResult → Option ℚ
  | ConfigResult.charge c => some c.charge_limit_soc
  | ConfigResult.discharge d => some d.discharge_limit_soc
  | ConfigResult.raw _ => Option.none

/-- A device as returned by the external client: either a keyed mapping or
an object with named attributes; each field none when missing. -/
inductive RawDevice where
  | mapping (sysSn : Option String) (sysName : Option String) (sysStatus : Option String)
  | attrObj (sysSn : Option String) (sysName : Option String) (sysStatus : Option String)
deriving DecidableEq

/-- Normalized device info built in the multiple-systems branch.  The
serial stays Option because mapping.get(sysSn) yields None when missing,
while getattr(obj, sysSn, Unknown) yields the string Unknown. -/
structure SystemInfo where
  serial : Option String
  name : String
  status : String
deriving DecidableEq

/-- The heterogeneous systems field of the resolver result: the raw device
list in the empty and single-system branches, the normalized info list in
the multiple-systems branch. -/
inductive SystemsField where
  | rawList (devices : List RawDevice)
  | infoList (infos : List SystemInfo)
deriving DecidableEq

/-- Result dict of get_default_serial. -/
structure SerialResult where
  success : Bool
  message : String
  serial : Option String
  systems : SystemsField
deriving DecidableEq

/-- The sysSn identifier extracted in the single-system branch:
system.get(sysSn) for a mapping, getattr(system, sysSn, None) for an
attribute object. -/
def devSysSn : RawDevice → Option String
  | RawDevice.mapping sn _ _ => sn
  | RawDevice.attrObj sn _ _ => sn

/-- Python str() interpolation of an optional string into an f-string. -/
def pyStrOfOpt : Option String → String
  | Option.none => "None"
  | some s => s

/-- Normalization applied per device in the multiple-systems branch of
get_default_serial: mapping keys via get with default Unknown for name and
status, attribute objects via getattr with default Unknown throughout. -/
def normalizeDevice : RawDevice → SystemInfo
  | RawDevice.mapping sn nm st =>
      { serial := sn, name := nm.getD "Unknown", status := st.getD "Unknown" }
  | RawDevice.attrObj sn nm st =>
      { serial := some (sn.getD "Unknown"), name := nm.getD "Unknown", status := st.getD "Unknown" }

/-- main.py get_default_serial, as a function of the device list fetched
from the external client; none models a None reply.  The credential and
exception paths are outside this pure core. -/
def get_default_serial : Option (List RawDevice) → SerialResult
  | Option.none =>
      { success := false
        message := "No Alpha ESS systems found in your account"
        serial := Option.none
        systems := SystemsField.rawList [] }
  | some [] =>
      { success := false
        message := "No Alpha ESS systems found in your account"
        serial := Option.none
        systems := SystemsField.rawList [] }
  | some [system] =>
      { success := true
        message := "Auto-selected single system: " ++ pyStrOfOpt (devSysSn system)
        serial := devSysSn system
        systems := SystemsField.rawList [system] }
  | some ess_list =>
      { success := true
        message := "Found " ++ toString ess_list.length ++ " systems. Please specify which serial to use."
        serial := Option.none
        systems := SystemsField.infoList (ess_list.map normalizeDevice) }

/-- Length of the systems field. -/
def systemsLen : SystemsField → Nat
  | SystemsField.rawList ds => ds.length
  | SystemsField.infoList xs => xs.length

/-- Python truthiness of an optional string: false for None and for the
empty string. -/
def pyTruthy (o : Option String) : Bool :=
  match o with
  | some s => s != ""
  | Option.none => false

/-- The serial actually used by a tool operation: the caller-supplied one
when truthy, otherwise the resolver result when the resolver succeeded
with a truthy serial, otherwise none (the operation fails fast). -/
def resolveSerial (serial : Option String) (serial_info : SerialResult) : Option String :=
  if pyTruthy serial then serial
  else if serial_info.success && pyTruthy serial_info.serial then serial_info.serial
  else Option.none

/-- The structured_data block built by get_ess_list. -/
structure SystemListStruct where
  recommended_serial : Option String
  systems : SystemsField
  requires_selection : Bool
deriving DecidableEq

/-- Payload carried by the get_ess_list envelope: the raw systems field or
the structured system-list block. -/
inductive EssPayload where
  | systems (s : SystemsField)
  | structuredList (s : SystemListStruct)
deriving DecidableEq

/-- Metadata entry for an optional serial: the string when present,
Python None otherwise. -/
def metaOfSerial (o : Option String) : MetaVal EssPayload :=
  match o with
  | some s => MetaVal.str s
  | Option.none => MetaVal.null

/-- main.py get_ess_list, as a function of the resolver result, the
construction instant threaded to the envelope builder. -/
def get_ess_list (serial_info : SerialResult) (now : String) : Envelope EssPayload :=
  if serial_info.success then
    create_enhanced_response true serial_info.message
      (some (EssPayload.systems serial_info.systems)) DataType.system_list now Option.none
      (some [ ("total_systems", MetaVal.num (systemsLen serial_info.systems))
            , ("auto_selected_serial", metaOfSerial serial_info.serial)
            , ("selection_strategy", MetaVal.str
                (if pyTruthy serial_info.serial then "single_system_auto" else "multiple_systems_manual")) ])
      (some (EssPayload.structuredList
        { recommended_serial := serial_info.serial
          systems := serial_info.systems
          requires_selection := serial_info.serial.isNone }))
  else
    create_enhanced_response false serial_info.message Option.none DataType.system_list now Option.none
      (some [("error_type", MetaVal.str "no_systems_found")]) Option.none

/-- One positional argument of an external client call. -/
inductive CallArg where
  | str (s : String)
  | num (q : ℚ)
  | int (n : Int)
deriving DecidableEq

/-- main.py set_battery_discharge, reduced to the call it issues: after
resolving the serial it invokes updateDisChargeConfigInfo with the
positional argument list returned here; none models the fail-fast exit
when no serial resolves. -/
def set_battery_discharge (enabled : Bool) (dp1_start dp1_end dp2_start dp2_end : String)
    (discharge_cutoff_soc : ℚ) (serial : Option String) (serial_info : SerialResult) :
    Option (List CallArg) :=
  match resolveSerial serial serial_info with
  | Option.none => Option.none
  | some s =>
      some [ CallArg.str s
           , CallArg.num discharge_cutoff_soc
           , CallArg.int (if enabled then 1 else 0)
           , CallArg.str dp1_end
           , CallArg.str dp2_end
           , CallArg.str dp1_start
           , CallArg.str dp2_start ]

/-- A raw day-record carrying a 1000 W solar sample, used to instantiate
the timeseries analytics claims. -/
def rec1000 : RawRecord :=
  { uploadTime := some "2024-01-15 00:00"
    ppv := some 1000
    load := some 500
    cbat := some 50
    feedIn := some 0
    gridCharge := some 0
    pchargingPile := some 0
    sysSn := some "AL1000" }

/-- A raw configuration mapping with every key absent, used to
instantiate the config projector claims. -/
def rawCfg0 : RawConfig :=
  { gridCharge := Option.none
    ctrDis := Option.none
    timeChaf1 := Option.none
    timeChae1 := Option.none
    timeChaf2 := Option.none
    timeChae2 := Option.none
    timeDisf1 := Option.none
    timeDise1 := Option.none
    timeDisf2 := Option.none
    timeDise2 := Option.none
    batHighCap := Option.none
    batUseCap := Option.none }

/-! ### Helper lemmas -/

theorem le_foldl_max (l : List ℚ) (a : ℚ) : a ≤ l.foldl max a := by
  induction l generalizing a with
  | nil => exact le_refl a
  | cons b t ih => exact le_trans (le_max_left a b) (ih (max a b))

theorem mem_le_foldl_max (l : List ℚ) (a x : ℚ) (hx : x ∈ l) : x ≤ l.foldl max a := by
  induction l generalizing a with
  | nil => cases hx
  | cons b t ih =>
      rcases List.mem_cons.mp hx with hxb | hxt
      · subst hxb
        exact le_trans (le_max_right a x) (le_foldl_max t (max a x))
      · exact ih (max a b) hxt

theorem foldl_max_mem (l : List ℚ) (a : ℚ) : l.foldl max a ∈ a :: l := by
  induction l generalizing a with
  | nil => exact List.mem_singleton.mpr rfl
  | cons b t ih =>
      have h := ih (max a b)
      rcases List.mem_cons.mp h with hh | ht
      · rcases max_choice a b with hab | hab
        · exact List.mem_cons.mpr (Or.inl (hh.trans hab))
        · exact List.mem_cons.mpr (Or.inr (List.mem_cons.mpr (Or.inl (hh.trans hab))))
      · exact List.mem_cons.mpr (Or.inr (List.mem_cons.mpr (Or.inr ht)))

theorem pyMax_mem (xs : List ℚ) (h : xs ≠ []) : pyMax xs ∈ xs := by
  cases xs with
  | nil => exact absurd rfl h
  | cons x t => exact foldl_max_mem t x

theorem le_pyMax (xs : List ℚ) (x : ℚ) (hx : x ∈ xs) : x ≤ pyMax xs := by
  cases xs with
  | nil => cases hx
  | cons a t =>
      rcases List.mem_cons.mp hx with hxa | hxt
      · subst hxa
        exact le_foldl_max t x
      · exact mem_le_foldl_max t a x hxt

theorem pyAvg_of_ne_nil (xs : List ℚ) (h : xs ≠ []) : pyAvg xs = xs.sum / (xs.length : ℚ) := by
  cases xs with
  | nil => exact absurd rfl h
  | cons a t => rfl

theorem dictLookup_append {α : Type} (l1 l2 : List (String × α)) (key : String) :
    dictLookup (l1 ++ l2) key =
      match dictLookup l1 key with
      | some v => some v
      | Option.none => dictLookup l2 key := by
  induction l1 with
  | nil => rfl
  | cons kv t ih =>
      obtain ⟨k, v⟩ := kv
      by_cases hk : k = key
      · simp [dictLookup, hk]
      · simp [dictLookup, hk, ih]

theorem dictLookup_cons {α : Type} (a : String) (b : α) (l : List (String × α)) (key : String) :
    dictLookup ((a, b) :: l) key = if a = key then some b else dictLookup l key := rfl

theorem dictLookup_map_self {α : Type} (d : List (String × α)) (k : String) (v : α) :
    dictLookup (d.map (fun kv => if kv.1 = k then (k, v) else kv)) k =
      if (dictLookup d k).isSome then some v else Option.none := by
  induction d with
  | nil => rfl
  | cons kv t ih =>
      obtain ⟨k1, v1⟩ := kv
      rw [List.map_cons]
      by_cases hk : k1 = k
      · rw [show (if ((k1, v1) : String × α).1 = k then (k, v) else (k1, v1)) = (k, v) from if_pos hk]
        rw [dictLookup_cons, if_pos rfl, dictLookup_cons, if_pos hk]
        rfl
      · rw [show (if ((k1, v1) : String × α).1 = k then (k, v) else (k1, v1)) = (k1, v1) from if_neg hk]
        rw [dictLookup_cons, if_neg hk, ih, dictLookup_cons, if_neg hk]

theorem dictLookup_map_other {α : Type} (d : List (String × α)) (k : String) (v : α)
    (key : String) (hne : key ≠ k) :
    dictLookup (d.map (fun kv => if kv.1 = k then (k, v) else kv)) key = dictLookup d key := by
  induction d with
  | nil => rfl
  | cons kv t ih =>
      obtain ⟨k1, v1⟩ := kv
      rw [List.map_cons]
      by_cases hk : k1 = k
      · rw [show (if ((k1, v1) : String × α).1 = k then (k, v) else (k1, v1)) = (k, v) from if_pos hk]
        have h1 : ¬ (k = key) := fun h => hne h.symm
        have h2 : ¬ (k1 = key) := by
          rw [hk]
          exact h1
        rw [dictLookup_cons, if_neg h1, dictLookup_cons, if_neg h2, ih]
      · rw [show (if ((k1, v1) : String × α).1 = k then (k, v) else (k1, v1)) = (k1, v1) from if_neg hk]
        by_cases hkey : k1 = key
        · rw [dictLookup_cons, if_pos hkey, dictLookup_cons, if_pos hkey]
        · rw [dictLookup_cons, if_neg hkey, dictLookup_cons, if_neg hkey, ih]

theorem dictLookup_insert_self {α : Type} (d : List (String × α)) (k : String) (v : α) :
    dictLookup (pyDictInsert d k v) k = some v := by
  unfold pyDictInsert
  by_cases h : (dictLookup d k).isSome
  · rw [if_pos h, dictLookup_map_self, if_pos h]
  · rw [if_neg h, dictLookup_append]
    have hd : dictLookup d k = Option.none := by
      cases hdk : dictLookup d k
      · rfl
      · rw [hdk] at h
        exact absurd rfl h
    rw [hd]
    show dictLookup ((k, v) :: []) k = some v
    rw [dictLookup_cons, if_pos rfl]

theorem dictLookup_insert_other {α : Type} (d : List (String × α)) (k : String) (v : α)
    (key : String) (hne : key ≠ k) :
    dictLookup (pyDictInsert d k v) key = dictLookup d key := by
  unfold pyDictInsert
  by_cases h : (dictLookup d k).isSome
  · rw [if_pos h]
    exact dictLookup_map_other d k v key hne
  · rw [if_neg h, dictLookup_append]
    cases hdk : dictLookup d key
    · show dictLookup ((k, v) :: []) key = Option.none
      rw [dictLookup_cons, if_neg (fun hh : k = key => hne hh.symm)]
      rfl
    · rfl

theorem dictMerge_lookup {α : Type} (entries : List (String × α)) (d : List (String × α))
    (key : String) :
    dictLookup (pyDictMerge d entries) key =
      match lastBinding entries key with
      | some v => some v
      | Option.none => dictLookup d key := by
  induction entries generalizing d with
  | nil => rfl
  | cons kv t ih =>
      obtain ⟨k, v⟩ := kv
      have hstep : pyDictMerge d ((k, v) :: t) = pyDictMerge (pyDictInsert d k v) t := rfl
      have hlast : lastBinding ((k, v) :: t) key =
          match lastBinding t key with
          | some w => some w
          | Option.none => if k = key then some v else Option.none := by
        unfold lastBinding
        rw [List.reverse_cons, dictLookup_append]
        rfl
      rw [hstep, ih, hlast]
      cases hlt : lastBinding t key
      · by_cases hk : k = key
        · subst hk
          simp [dictLookup_insert_self]
        · simp [hk, dictLookup_insert_other d k v key (fun h => hk h.symm)]
      · rfl

theorem dictLookup_eq_none_of_noKey {α : Type} (l : List (String × α)) (key : String)
    (h : ∀ kv ∈ l, kv.1 ≠ key) : dictLookup l key = Option.none := by
  induction l with
  | nil => rfl
  | cons kv t ih =>
      obtain ⟨k, v⟩ := kv
      have hk : k ≠ key := h (k, v) (List.mem_cons_self _ _)
      simp only [dictLookup, if_neg hk]
      exact ih (fun kv hkv => h kv (List.mem_cons_of_mem _ hkv))

theorem serialMetadata_timestamp {V : Type} (now : String) (su : Option String) :
    dictLookup (serialMetadata (V := V) now su) "timestamp" = some (MetaVal.str now) := by
  cases su with
  | none => rfl
  | some s =>
      show dictLookup
        (if s != "" then [("timestamp", MetaVal.str now), ("serial_used", MetaVal.str s)]
         else [("timestamp", MetaVal.str now)]) "timestamp" = some (MetaVal.str (V := V) now)
      by_cases hs : (s != "") = true
      · rw [if_pos hs, dictLookup_cons, if_pos rfl]
      · rw [if_neg hs, dictLookup_cons, if_pos rfl]

theorem serialMetadata_serial {V : Type} (now : String) (s : String) (hs : s ≠ "") :
    dictLookup (serialMetadata (V := V) now (some s)) "serial_used" = some (MetaVal.str s) := by
  show dictLookup
    (if s != "" then [("timestamp", MetaVal.str now), ("serial_used", MetaVal.str s)]
     else [("timestamp", MetaVal.str now)]) "serial_used" = some (MetaVal.str (V := V) s)
  have hb : (s != "") = true := bne_iff_ne.mpr hs
  rw [if_pos hb, dictLookup_cons, if_neg (by decide : ¬ ("timestamp" = "serial_used")),
    dictLookup_cons, if_pos rfl]

/-! ### Claim theorems -/

/-- Claim C9: the timeseries projector applied to an empty or null record
list returns exactly the result with an empty series and an empty summary
(the empty summary dict is modelled by Option.none). -/
theorem claim_C9 (serial : String) :
    structure_timeseries_data Option.none serial = { series := [], summary := Option.none } ∧
    structure_timeseries_data (some []) serial = { series := [], summary := Option.none } :=
  ⟨rfl, rfl⟩

/-- Claim C3: for a device list of length exactly 1, get_default_serial
returns success true, the serial extracted from that device (its sysSn,
for a keyed mapping as for an attribute object), and a message stating
that auto-selection occurred. -/
theorem claim_C3 (d : RawDevice) :
    (get_default_serial (some [d])).success = true ∧
    (get_default_serial (some [d])).serial = devSysSn d ∧
    (get_default_serial (some [d])).message =
      "Auto-selected single system: " ++ pyStrOfOpt (devSysSn d) ∧
    (get_default_serial (some [d])).systems = SystemsField.rawList [d] :=
  ⟨rfl, rfl, rfl, rfl⟩

/-- Claim C5 counterexample: on the empty device list the resolver message
is the literal string from the source, not the string the claim names. -/
theorem claim_C5_counterexample :
    (get_default_serial (some [])).message ≠ "no systems found" := by
  decide

/-- Claim C5 as amended: for an empty or null device list,
get_default_serial returns success false, serial null, an empty systems
list, and the message saying no Alpha ESS systems were found in the
account. -/
theorem claim_C5_amended :
    get_default_serial Option.none =
      { success := false
        message := "No Alpha ESS systems found in your account"
        serial := Option.none
        systems := SystemsField.rawList [] } ∧
    get_default_serial (some []) =
      { success := false
        message := "No Alpha ESS systems found in your account"
        serial := Option.none
        systems := SystemsField.rawList [] } :=
  ⟨rfl, rfl⟩

/-- Claim C2: whenever set_battery_discharge resolves a serial, the
external update call receives its positional arguments in exactly the
order serial, discharge cutoff SOC, enabled flag as 1 or 0, period-1 end,
period-2 end, period-1 start, period-2 start. -/
theorem claim_C2 (enabled : Bool) (dp1_start dp1_end dp2_start dp2_end : String)
    (discharge_cutoff_soc : ℚ) (serial : Option String) (serial_info : SerialResult)
    (s : String) (h : resolveSerial serial serial_info = some s) :
    set_battery_discharge enabled dp1_start dp1_end dp2_start dp2_end
        discharge_cutoff_soc serial serial_info =
      some [ CallArg.str s
           , CallArg.num discharge_cutoff_soc
           , CallArg.int (if enabled then 1 else 0)
           , CallArg.str dp1_end
           , CallArg.str dp2_end
           , CallArg.str dp1_start
           , CallArg.str dp2_start ] := by
  unfold set_battery_discharge
  rw [h]

/-- Witness for claim C2 at a concrete invocation with an explicit serial. -/
theorem claim_C2_witness :
    resolveSerial (some "AL2002") { success := false, message := "x", serial := Option.none, systems := SystemsField.rawList [] } = some "AL2002" ∧
    set_battery_discharge true "01:00" "02:00" "03:00" "04:00" 10 (some "AL2002")
        { success := false, message := "x", serial := Option.none, systems := SystemsField.rawList [] } =
      some [ CallArg.str "AL2002"
           , CallArg.num 10
           , CallArg.int (if true then 1 else 0)
           , CallArg.str "02:00"
           , CallArg.str "04:00"
           , CallArg.str "01:00"
           , CallArg.str "03:00" ] :=
  ⟨by decide, claim_C2 true "01:00" "02:00" "03:00" "04:00" 10 (some "AL2002")
    { success := false, message := "x", serial := Option.none, systems := SystemsField.rawList [] }
    "AL2002" (by decide)⟩

/-- Claim C7: for every raw config mapping and every period produced by
the config projector with kind charge or discharge, the active flag is
true exactly when the start time or the end time differs from the literal
string 00:00. -/
theorem claim_C7 (raw : RawConfig) (p : ConfigPeriod) :
    (p ∈ configPeriods (structure_config_data raw "charge") →
      (p.active = true ↔ (p.start_time ≠ "00:00" ∨ p.end_time ≠ "00:00"))) ∧
    (p ∈ configPeriods (structure_config_data raw "discharge") →
      (p.active = true ↔ (p.start_time ≠ "00:00" ∨ p.end_time ≠ "00:00"))) := by
  constructor
  · intro hp
    rw [structure_config_data, if_pos rfl] at hp
    simp only [configPeriods, List.mem_cons, List.mem_singleton] at hp
    rcases hp with hp | hp | hp
    · subst hp
      simp [Bool.or_eq_true, bne_iff_ne]
    · subst hp
      simp [Bool.or_eq_true, bne_iff_ne]
    · cases hp
  · intro hp
    rw [structure_config_data, if_neg (by decide : ¬ ("discharge" = "charge")), if_pos rfl] at hp
    simp only [configPeriods, List.mem_cons, List.mem_singleton] at hp
    rcases hp with hp | hp | hp
    · subst hp
      simp [Bool.or_eq_true, bne_iff_ne]
    · subst hp
      simp [Bool.or_eq_true, bne_iff_ne]
    · cases hp

/-- Witness for claim C7: the all-default period 1 of the charge
projection of an empty raw mapping has both boundaries 00:00 and is
inactive. -/
theorem claim_C7_witness :
    (({ period := 1, start_time := "00:00", end_time := "00:00", active := false } : ConfigPeriod) ∈
      configPeriods (structure_config_data rawCfg0 "charge")) ∧
    ((({ period := 1, start_time := "00:00", end_time := "00:00", active := false } : ConfigPeriod).active = true) ↔
      (({ period := 1, start_time := "00:00", end_time := "00:00", active := false } : ConfigPeriod).start_time ≠ "00:00" ∨
       ({ period := 1, start_time := "00:00", end_time := "00:00", active := false } : ConfigPeriod).end_time ≠ "00:00")) :=
  ⟨by decide,
   (claim_C7 rawCfg0 { period := 1, start_time := "00:00", end_time := "00:00", active := false }).1
    (by decide)⟩

/-- Claim C8: the config projector with kind charge or discharge yields
exactly 2 periods for every raw mapping; missing boundary keys are filled
with 00:00 (giving inactive periods); a missing batHighCap defaults the
charge limit SOC to 100 and a missing batUseCap defaults the discharge
limit SOC to 10. -/
theorem claim_C8 (raw : RawConfig) :
    (configPeriods (structure_config_data raw "charge")).length = 2 ∧
    (configPeriods (structure_config_data raw "discharge")).length = 2 ∧
    configPeriods (structure_config_data
        { raw with timeChaf1 := Option.none, timeChae1 := Option.none,
                   timeChaf2 := Option.none, timeChae2 := Option.none } "charge") =
      [ { period := 1, start_time := "00:00", end_time := "00:00", active := false }
      , { period := 2, start_time := "00:00", end_time := "00:00", active := false } ] ∧
    configPeriods (structure_config_data
        { raw with timeDisf1 := Option.none, timeDise1 := Option.none,
                   timeDisf2 := Option.none, timeDise2 := Option.none } "discharge") =
      [ { period := 1, start_time := "00:00", end_time := "00:00", active := false }
      , { period := 2, start_time := "00:00", end_time := "00:00", active := false } ] ∧
    configLimitSoc (structure_config_data { raw with batHighCap := Option.none } "charge") = some 100 ∧
    configLimitSoc (structure_config_data { raw with batUseCap := Option.none } "discharge") = some 10 := by
  refine ⟨?_, ?_, ?_, ?_, ?_, ?_⟩
  · rw [structure_config_data, if_pos rfl]
    rfl
  · rw [structure_config_data, if_neg (by decide : ¬ ("discharge" = "charge")), if_pos rfl]
    rfl
  · rw [structure_config_data, if_pos rfl]
    rfl
  · rw [structure_config_data, if_neg (by decide : ¬ ("discharge" = "charge")), if_pos rfl]
    rfl
  · rw [structure_config_data, if_pos rfl]
    rfl
  · rw [structure_config_data, if_neg (by decide : ¬ ("discharge" = "charge")), if_pos rfl]
    rfl

/-- Claim C10: the timeseries projector never reads its serial argument
and never reads the redundant per-record serial field, so its output is
identical for any two serials and for any rewriting of the sysSn fields,
and no serial appears in the projected entries. -/
theorem claim_C10 (raw_data : Option (List RawRecord)) (s1 s2 : String) (v : Option String) :
    structure_timeseries_data raw_data s1 = structure_timeseries_data raw_data s2 ∧
    structure_timeseries_data (raw_data.map (List.map (setSysSn v))) s1 =
      structure_timeseries_data raw_data s1 := by
  refine ⟨rfl, ?_⟩
  cases raw_data with
  | none => rfl
  | some l =>
      have hmap : (l.map (setSysSn v)).map entryOfRecord = l.map entryOfRecord := by
        rw [List.map_map]
        exact List.map_congr_left (fun r _ => rfl)
      have hemp : (l.map (setSysSn v)).isEmpty = l.isEmpty := by
        cases l with
        | nil => rfl
        | cons a t => rfl
      show structure_timeseries_data (some (l.map (setSysSn v))) s1 =
        structure_timeseries_data (some l) s1
      unfold structure_timeseries_data
      dsimp only
      rw [Option.getD_some, Option.getD_some, hemp, hmap]

/-- Claim C1: on every non-empty record list, the timeseries summary has
total_generation_kwh equal to the sum of the extracted solar_power
samples times 10 / 60 / 1000, peak_power equal to the maximum of those
samples, and avg_power equal to their arithmetic mean. -/
theorem claim_C1 (records : List RawRecord) (serial : String) (h : records ≠ []) :
    ∃ s, (structure_timeseries_data (some records) serial).summary = some s ∧
      s.solar.total_generation_kwh = (solarSamples records).sum * 10 / 60 / 1000 ∧
      s.solar.peak_power ∈ solarSamples records ∧
      (∀ x ∈ solarSamples records, x ≤ s.solar.peak_power) ∧
      s.solar.avg_power = (solarSamples records).sum / ((solarSamples records).length : ℚ) := by
  obtain ⟨r, rs, rfl⟩ := List.exists_cons_of_ne_nil h
  have hne : solarSamples (r :: rs) ≠ [] := by simp [solarSamples]
  refine ⟨mkSummary ((r :: rs).map entryOfRecord), rfl, rfl, ?_, ?_, ?_⟩
  · exact pyMax_mem _ hne
  · intro x hx
    exact le_pyMax _ x hx
  · exact pyAvg_of_ne_nil _ hne

/-- Witness for claim C1: six 10-minute samples of 1000 W yield exactly
1 kWh of total generation, with peak and average both 1000 W. -/
theorem claim_C1_witness :
    List.replicate 6 rec1000 ≠ [] ∧
    ∃ s, (structure_timeseries_data (some (List.replicate 6 rec1000)) "AL1000").summary = some s ∧
      s.solar.total_generation_kwh = 1 ∧
      s.solar.peak_power = 1000 ∧
      s.solar.avg_power = 1000 := by
  refine ⟨by decide, ?_⟩
  obtain ⟨s, hs, htot, hmem, hub, havg⟩ :=
    claim_C1 (List.replicate 6 rec1000) "AL1000" (by decide)
  have hsamples : solarSamples (List.replicate 6 rec1000) =
      [1000, 1000, 1000, 1000, 1000, 1000] := rfl
  refine ⟨s, hs, ?_, ?_, ?_⟩
  · rw [htot, hsamples]
    norm_num [List.sum_cons, List.sum_nil]
  · have hall : ∀ x ∈ solarSamples (List.replicate 6 rec1000), x = 1000 := by
      rw [hsamples]
      intro x hx
      simp only [List.mem_cons, List.not_mem_nil, or_false] at hx
      rcases hx with h | h | h | h | h | h <;> exact h
    exact hall _ hmem
  · rw [havg, hsamples]
    norm_num [List.sum_cons, List.sum_nil]

/-- Claim C4: for a device list of length at least 2, get_default_serial
returns success true, serial null, and a normalized systems list of the
same length, each device mapped to the serial-name-status shape with
missing name and status defaulted to Unknown; the system-list structured
projection built on it then has requires_selection true. -/
theorem claim_C4 (l : List RawDevice) (now : String) (h : 2 ≤ l.length) :
    (get_default_serial (some l)).success = true ∧
    (get_default_serial (some l)).serial = Option.none ∧
    (get_default_serial (some l)).systems = SystemsField.infoList (l.map normalizeDevice) ∧
    systemsLen (get_default_serial (some l)).systems = l.length ∧
    (∀ sn nm st, normalizeDevice (RawDevice.mapping sn nm st) =
        { serial := sn, name := nm.getD "Unknown", status := st.getD "Unknown" } ∧
      normalizeDevice (RawDevice.attrObj sn nm st) =
        { serial := some (sn.getD "Unknown"), name := nm.getD "Unknown",
          status := st.getD "Unknown" }) ∧
    (get_ess_list (get_default_serial (some l)) now).structured =
      some (EssPayload.structuredList
        { recommended_serial := Option.none
          systems := SystemsField.infoList (l.map normalizeDevice)
          requires_selection := true }) := by
  cases l with
  | nil =>
      rw [List.length_nil] at h
      omega
  | cons a t =>
      cases t with
      | nil =>
          rw [List.length_cons, List.length_nil] at h
          omega
      | cons b t2 =>
          refine ⟨rfl, rfl, rfl, ?_, ?_, rfl⟩
          · show ((a :: b :: t2).map normalizeDevice).length = (a :: b :: t2).length
            exact List.length_map _ _
          · intro sn nm st
            exact ⟨rfl, rfl⟩

/-- Witness for claim C4 on a two-device list mixing a keyed mapping and
an attribute object. -/
theorem claim_C4_witness :
    2 ≤ ([ RawDevice.mapping (some "A1") Option.none Option.none
         , RawDevice.attrObj (some "B2") (some "Home") (some "Normal") ] : List RawDevice).length ∧
    ((get_default_serial (some [ RawDevice.mapping (some "A1") Option.none Option.none
         , RawDevice.attrObj (some "B2") (some "Home") (some "Normal") ])).success = true ∧
     (get_default_serial (some [ RawDevice.mapping (some "A1") Option.none Option.none
         , RawDevice.attrObj (some "B2") (some "Home") (some "Normal") ])).serial = Option.none ∧
     (get_default_serial (some [ RawDevice.mapping (some "A1") Option.none Option.none
         , RawDevice.attrObj (some "B2") (some "Home") (some "Normal") ])).systems =
       SystemsField.infoList ([ RawDevice.mapping (some "A1") Option.none Option.none
         , RawDevice.attrObj (some "B2") (some "Home") (some "Normal") ].map normalizeDevice) ∧
     systemsLen (get_default_serial (some [ RawDevice.mapping (some "A1") Option.none Option.none
         , RawDevice.attrObj (some "B2") (some "Home") (some "Normal") ])).systems =
       ([ RawDevice.mapping (some "A1") Option.none Option.none
         , RawDevice.attrObj (some "B2") (some "Home") (some "Normal") ] : List RawDevice).length ∧
     (∀ sn nm st, normalizeDevice (RawDevice.mapping sn nm st) =
         { serial := sn, name := nm.getD "Unknown", status := st.getD "Unknown" } ∧
       normalizeDevice (RawDevice.attrObj sn nm st) =
         { serial := some (sn.getD "Unknown"), name := nm.getD "Unknown",
           status := st.getD "Unknown" }) ∧
     (get_ess_list (get_default_serial (some [ RawDevice.mapping (some "A1") Option.none Option.none
         , RawDevice.attrObj (some "B2") (some "Home") (some "Normal") ])) "T").structured =
       some (EssPayload.structuredList
         { recommended_serial := Option.none
           systems := SystemsField.infoList ([ RawDevice.mapping (some "A1") Option.none Option.none
             , RawDevice.attrObj (some "B2") (some "Home") (some "Normal") ].map normalizeDevice)
           requires_selection := true })) :=
  ⟨by decide,
   claim_C4 [ RawDevice.mapping (some "A1") Option.none Option.none
            , RawDevice.attrObj (some "B2") (some "Home") (some "Normal") ] "T" (by decide)⟩

/-- Claim C6 counterexample: an empty-string serial_used is a present
value, yet the builder adds no serial_used key to the metadata, because
the source guards with Python truthiness rather than a None check. -/
theorem claim_C6_counterexample :
    (some "" : Option String).isSome = true ∧
    dictLookup (create_enhanced_response (V := String) true "m" Option.none DataType.snapshot
        "t0" (some "") Option.none Option.none).metadata "serial_used" = Option.none :=
  ⟨rfl, rfl⟩

/-- Claim C6 as amended: every envelope carries a timestamp metadata key;
the structured field equals exactly the supplied optional structured
value (present precisely when non-null); a present non-empty serial_used
is merged into metadata whenever the caller metadata does not collide on
that key; and on any key collision the caller-supplied metadata entry
wins. -/
theorem claim_C6_amended {V : Type} (success : Bool) (message : String) (raw_data : Option V)
    (data_type : DataType) (now : String) (serial_used : Option String)
    (metadata : Option (List (String × MetaVal V))) (structured_data : Option V) :
    ((dictLookup (create_enhanced_response success message raw_data data_type now serial_used
        metadata structured_data).metadata "timestamp").isSome = true) ∧
    ((create_enhanced_response success message raw_data data_type now serial_used metadata
        structured_data).structured = structured_data) ∧
    (∀ s, serial_used = some s → s ≠ "" →
      (∀ kv ∈ metadata.getD [], kv.1 ≠ "serial_used") →
      dictLookup (create_enhanced_response success message raw_data data_type now serial_used
        metadata structured_data).metadata "serial_used" = some (MetaVal.str s)) ∧
    (∀ k v, lastBinding (metadata.getD []) k = some v →
      dictLookup (create_enhanced_response success message raw_data data_type now serial_used
        metadata structured_data).metadata k = some v) := by
  refine ⟨?_, rfl, ?_, ?_⟩
  · show (dictLookup (pyDictMerge (serialMetadata now serial_used) (metadata.getD []))
      "timestamp").isSome = true
    rw [dictMerge_lookup]
    cases hl : lastBinding (metadata.getD []) "timestamp"
    · show (dictLookup (serialMetadata (V := V) now serial_used) "timestamp").isSome = true
      rw [serialMetadata_timestamp]
      rfl
    · rfl
  · intro s hsu hs hnk
    subst hsu
    show dictLookup (pyDictMerge (serialMetadata now (some s)) (metadata.getD []))
      "serial_used" = some (MetaVal.str s)
    rw [dictMerge_lookup]
    have hnone : lastBinding (metadata.getD []) "serial_used" = Option.none := by
      unfold lastBinding
      exact dictLookup_eq_none_of_noKey _ _ (fun kv hkv => hnk kv (List.mem_reverse.mp hkv))
    rw [hnone]
    exact serialMetadata_serial now s hs
  · intro k v hkv
    show dictLookup (pyDictMerge (serialMetadata now serial_used) (metadata.getD [])) k = some v
    rw [dictMerge_lookup, hkv]

/-- Witness for the amended claim C6 at a concrete envelope with a
non-empty serial and one caller metadata entry. -/
theorem claim_C6_witness :
    ((dictLookup (create_enhanced_response (V := String) true "m" Option.none DataType.snapshot
        "t0" (some "AL3003") (some [("extra", MetaVal.str "x")])
        (some "payload")).metadata "timestamp").isSome = true) ∧
    ((create_enhanced_response (V := String) true "m" Option.none DataType.snapshot
        "t0" (some "AL3003") (some [("extra", MetaVal.str "x")])
        (some "payload")).structured = some "payload") ∧
    (dictLookup (create_enhanced_response (V := String) true "m" Option.none DataType.snapshot
        "t0" (some "AL3003") (some [("extra", MetaVal.str "x")])
        (some "payload")).metadata "serial_used" = some (MetaVal.str "AL3003")) ∧
    (dictLookup (create_enhanced_response (V := String) true "m" Option.none DataType.snapshot
        "t0" (some "AL3003") (some [("extra", MetaVal.str "x")])
        (some "payload")).metadata "extra" = some (MetaVal.str "x")) := by
  have h := claim_C6_amended (V := String) true "m" Option.none DataType.snapshot "t0"
    (some "AL3003") (some [("extra", MetaVal.str "x")]) (some "payload")
  refine ⟨h.1, h.2.1, ?_, ?_⟩
  · exact h.2.2.1 "AL3003" rfl (by decide) (by decide)
  · exact h.2.2.2 "extra" (MetaVal.str "x") (by decide)
